import Mathlib

/-!
Verification of the bono_cat pipeline against its specification.

Shallow embedding of the core components of the repository:

* `RunPod`    — the RunPod job client (`src/src/integrations/runpod.py`):
  job submission and the status-polling loop with its timeout bound.
* `Catalog`   — the PDF catalog assembler (`src/src/catalog/assembler.py`):
  page composition, aspect-fit placement, missing-image handling.
* `Pipeline`  — the batch orchestrator (`src/pipeline.py`): image discovery,
  per-item processing with isolation, batch report, document generation.
* `Drive`     — the Google Drive folder watcher
  (`src/src/integrations/google_drive.py`).
* `ImageUtil` — garment-image preparation (`src/src/utils/image.py`).

Time is modelled discretely: `asyncio.sleep(poll_interval)` advances the
clock by `poll_interval` whole seconds and every other operation is
instantaneous, matching the specification's whole-second timing semantics.
Remote HTTP interactions are modelled as response schedules supplied as
arguments; Python exceptions are modelled with `Except`.
-/

namespace RunPod

/-- Mirror of the `JobResult` dataclass (runpod.py lines 23-31).  The
`execution_time` field is not carried here; the elapsed wall-clock time of a
polling run is instead returned as the second component of `pollForResult`. -/
structure JobResult where
  success : Bool
  job_id : String
  status : String
  output : Option (List (String × String)) := none
  error : Option String := none
deriving Repr, DecidableEq

/-- One observation of the status endpoint, i.e. one evaluation of
`client.get(f"{base_url}/status/{job_id}")` inside `_poll_for_result`:
either the request itself raises a transport-level exception (httpx raises;
`_poll_for_result` has no try/except), or it completes with a non-200
status code, or it completes with a 200 response whose JSON body carries a
`status` string, optional `output` mapping and optional `error`. -/
inductive PollResponse where
  | raise (msg : String)
  | badStatus
  | ok (status : String) (output : List (String × String)) (err : Option String)
deriving Repr, DecidableEq

/-- A response that completed with HTTP 200 and reported a status that is
none of the terminal codes `COMPLETED`, `FAILED`, `CANCELLED`. -/
def PollResponse.reportsNonTerminal : PollResponse → Bool
  | .raise _ => false
  | .badStatus => false
  | .ok s _ _ => !(s == "COMPLETED" || s == "FAILED" || s == "CANCELLED")

/-- Outcome of the submission request `client.post(f"{base_url}/run", ...)`
in `submit_job` (runpod.py lines 104-119): a raised transport exception, a
non-200 response with body `text`, or acceptance with a job id. -/
inductive SubmitResponse where
  | raise (msg : String)
  | httpError (text : String)
  | accepted (id : String)
deriving Repr, DecidableEq

/-- Mirror of `RunPodClient._poll_for_result` (runpod.py lines 135-190).

The loop: if the elapsed time since entering the loop exceeds `T`
(`self.timeout`), return the timeout `JobResult`; otherwise perform the
status query (`responses k` is the outcome of the k-th query).  A raised
transport exception propagates (there is no try/except in the source).  A
non-200 response sleeps `P` (`self.poll_interval`) seconds and retries.  A
200 response with a terminal status returns the corresponding `JobResult`;
any other status sleeps `P` seconds and retries.  The returned natural
number is the elapsed time (sum of the sleeps) at the moment of return. -/
def pollForResult (T P : ℕ) (h' : 0 < P) (jobId : String)
    (responses : ℕ → PollResponse) (k : ℕ) (elapsed : ℕ) :
    Except String (JobResult × ℕ) :=
  if hTimeout : T < elapsed then
    .ok ({ success := false, job_id := jobId, status := "timeout",
           error := some ("Job timed out after " ++ toString T ++ " seconds") },
         elapsed)
  else
    match responses k with
    | .raise msg => .error msg
    | .badStatus => pollForResult T P h' jobId responses (k + 1) (elapsed + P)
    | .ok s out err =>
      if s = "COMPLETED" then
        .ok ({ success := true, job_id := jobId, status := s, output := some out }, elapsed)
      else if s = "FAILED" then
        .ok ({ success := false, job_id := jobId, status := s,
               error := some (err.getD "Job failed without error message") }, elapsed)
      else if s = "CANCELLED" then
        .ok ({ success := false, job_id := jobId, status := s,
               error := some "Job was cancelled" }, elapsed)
      else pollForResult T P h' jobId responses (k + 1) (elapsed + P)
termination_by T + 1 - elapsed
decreasing_by
  all_goals omega

/-- Mirror of `RunPodClient.submit_job` (runpod.py lines 74-133).  A non-200
submission response returns the `error`-status `JobResult`; on acceptance,
if `wait_for_completion` is false the client returns at once with status
`"queued"` (the code's marker for the spec's `Accepted` state) and the job
id from the endpoint, and otherwise it enters the polling loop. -/
def submitJob (T P : ℕ) (h' : 0 < P) (submitResponse : SubmitResponse)
    (wait_for_completion : Bool) (responses : ℕ → PollResponse) :
    Except String JobResult :=
  match submitResponse with
  | .raise msg => .error msg
  | .httpError text =>
      .ok { success := false, job_id := "", status := "error",
            error := some ("Failed to submit job: " ++ text) }
  | .accepted jobId =>
      if wait_for_completion = false then
        .ok { success := true, job_id := jobId, status := "queued" }
      else
        (pollForResult T P h' jobId responses 0 0).map (fun r => r.1)

end RunPod

namespace Catalog

/-- Mirror of the `Page` contents composed by `CatalogAssembler`
(assembler.py): a cover page, a product page carrying the title, optional
code, 1-indexed page number and the list of image paths actually drawn on
it, or the back cover. -/
inductive Page where
  | cover
  | product (title : List Char) (code : Option (List Char)) (pageNumber : ℕ)
      (drawnImages : List (List Char))
  | backCover
deriving Repr, DecidableEq

/-- One element of the `images` list consumed by
`CatalogAssembler.create_catalog` (assembler.py lines 74-116), viewed
through the keys that method reads: `full_body`, `output_path`, `closeup`,
`product_name`, `product_code`.  A key that is absent from the Python dict
is `none`. -/
structure Entry where
  full_body : Option (List Char) := none
  output_path : Option (List Char) := none
  closeup : Option (List Char) := none
  product_name : Option (List Char) := none
  product_code : Option (List Char) := none
deriving Repr, DecidableEq

/-- The message of the `TypeError` raised by `os.path.exists(None)`:
`genericpath.exists` only catches `OSError` and `ValueError`, so the
`TypeError` raised by `os.stat(None)` propagates. -/
def typeErrorNone : String :=
  "TypeError: stat: path should be string, bytes, os.PathLike or integer, not NoneType"

/-- Mirror of `CatalogAssembler._draw_single_image` (assembler.py lines
267-313) at the level of which images end up on the page: a `None` path
raises `TypeError` (see `typeErrorNone`); a path that does not exist on
disk is logged and skipped (nothing drawn, no error); an existing path is
drawn.  Returns the list of drawn image paths. -/
def draw_single_image (pathExists : List Char → Bool) :
    Option (List Char) → Except String (List (List Char))
  | none => .error typeErrorNone
  | some p => .ok (if pathExists p then [p] else [])

/-- Mirror of `CatalogAssembler._create_product_page` (assembler.py lines
195-248): if the `closeup` value is truthy and exists on disk, the split
layout draws the full-body image and then the closeup; otherwise the single
centered layout draws only the full-body image.  The product title, code
and footer page number are always drawn and the page is always emitted
unless drawing raised. -/
def create_product_page (pathExists : List Char → Bool)
    (full_body closeup : Option (List Char)) (product_name : List Char)
    (product_code : Option (List Char)) (page_number : ℕ) :
    Except String Page := do
  let imgs ←
    if (match closeup with | some cp => pathExists cp | none => false) then do
      let l ← draw_single_image pathExists full_body
      let r ← draw_single_image pathExists closeup
      pure (l ++ r)
    else
      draw_single_image pathExists full_body
  pure (Page.product product_name product_code page_number imgs)

/-- The default product name `f"Style #{i+1}"` used when the entry has no
`product_name` key (assembler.py line 113). -/
def defaultName (i : ℕ) : List Char := "Style #".toList ++ (toString (i + 1)).toList

/-- Mirror of `CatalogAssembler.create_catalog` (assembler.py lines
74-126).  A canvas is created unconditionally; with `include_cover` the
cover page is composed first and the back cover last; one product page is
composed per entry, in order, with `full_body` falling back on
`output_path` (Python `or`) and the 1-indexed product page number.  The
boolean result records that `canvas.save()` was reached, i.e. the artifact
was written.  There is no emptiness check on `images`. -/
def create_catalog (images : List Entry) (include_cover : Bool)
    (pathExists : List Char → Bool) : Except String (List Page × Bool) := do
  let productPages ← images.enum.mapM (fun ie =>
    create_product_page pathExists
      (ie.2.full_body.orElse (fun _ => ie.2.output_path)) ie.2.closeup
      (ie.2.product_name.getD (defaultName ie.1)) ie.2.product_code (ie.1 + 1))
  pure ((if include_cover then [Page.cover] else []) ++ productPages
        ++ (if include_cover then [Page.backCover] else []), true)

/-- Lexicographic comparison on file names, modelling Python's `sorted`. -/
def lexLe : List Char → List Char → Bool
  | [], _ => true
  | _ :: _, [] => false
  | a :: as, b :: bs => if a < b then true else if a = b then lexLe as bs else false

/-- Insertion used by `sortFiles`. -/
def insertSorted (f : List Char) : List (List Char) → List (List Char)
  | [] => [f]
  | g :: gs => if lexLe f g then f :: g :: gs else g :: insertSorted f gs

/-- Model of `sorted(image_path.glob("*.png"))` in
`FashionCatalogPipeline.generate_catalog_from_images`. -/
def sortFiles : List (List Char) → List (List Char)
  | [] => []
  | f :: fs => insertSorted f (sortFiles fs)

/-- Model of Python's `str.replace("_", " ")` on a file stem. -/
def replaceUnderscore (s : List Char) : List Char :=
  s.map (fun c => if c = '_' then ' ' else c)

/-- Helper for `pyTitle`: the boolean records whether the previous
character was alphabetic. -/
def pyTitleGo : List Char → Bool → List Char
  | [], _ => []
  | c :: cs, prevAlpha =>
    (if c.isAlpha then (if prevAlpha then c.toLower else c.toUpper) else c)
      :: pyTitleGo cs c.isAlpha

/-- Model of Python's `str.title()` for ASCII input: the first letter of
every run of letters is uppercased and the rest lowercased. -/
def pyTitle (s : List Char) : List Char := pyTitleGo s false

end Catalog

namespace Pipeline

/-- The supported extensions `ImageProcessor.SUPPORTED_FORMATS`
(image.py line 23). -/
def SUPPORTED_FORMATS : List (List Char) :=
  [".png".toList, ".jpg".toList, ".jpeg".toList, ".webp".toList]

/-- Model of Python's `str.upper()` on an ASCII extension, as in the glob
pattern `f"*{ext.upper()}"`. -/
def upperPat (s : List Char) : List Char := s.map Char.toUpper

/-- Suffix test on file names: `input_path.glob(f"*{ext}")` keeps exactly
the directory entries whose name ends with `ext` (the `*` of the pattern
matches any, possibly empty, run of characters). -/
def endsWith (s p : List Char) : Bool := decide (p <:+ s)

/-- Image discovery in `FashionCatalogPipeline.run_batch` (pipeline.py
lines 197-201): for each supported extension, extend the list first with
the files matching the lowercase pattern, then with those matching the
uppercase pattern.  `files` is the directory listing. -/
def discoverImages (files : List (List Char)) : List (List Char) :=
  SUPPORTED_FORMATS.foldl
    (fun acc ext =>
      (acc ++ files.filter (fun f => endsWith f ext))
        ++ files.filter (fun f => endsWith f (upperPat ext)))
    []

/-- A file whose extension is in the supported set when matched
case-insensitively: its lowercased name ends with one of the supported
(lowercase) extensions. -/
def supportedCI (f : List Char) : Bool :=
  SUPPORTED_FORMATS.any (fun ext => endsWith (f.map Char.toLower) ext)

/-- Index of the last occurrence of `c` in `name`, as Python's
`str.rfind`. -/
def rfindChar (name : List Char) (c : Char) : Option ℕ :=
  match (name.reverse).findIdx? (fun a => a = c) with
  | none => none
  | some j => some (name.length - 1 - j)

/-- Model of `pathlib.PurePath.stem`: the name with its last suffix
removed, where a dot at position 0 or at the very end does not start a
suffix. -/
def stem (name : List Char) : List Char :=
  match rfindChar name '.' with
  | some i => if 0 < i ∧ i < name.length - 1 then name.take i else name
  | none => name

/-- Outcome of `process_single_garment` for one garment (pipeline.py lines
127-175 together with `submit_workflow_with_images`, runpod.py lines
240-299): either a dict with `success=True` and the optional saved
`full_body_path` and (`"final"` output) `output_path`, or a dict with
`success=False` and an error message, or a raised exception caught by
`run_batch`'s per-item `try/except`. -/
inductive ItemOutcome where
  | ok (full_body_path output_path : Option (List Char)) (job_id : List Char)
  | fail (error : String)
  | raise (error : String)
deriving Repr, DecidableEq

/-- Whether the outcome carries `success=True`. -/
def ItemOutcome.isSuccess : ItemOutcome → Bool
  | .ok _ _ _ => true
  | .fail _ => false
  | .raise _ => false

/-- The per-item result dict accumulated in `results` by `run_batch`
(pipeline.py lines 215-234), through the keys later code reads. -/
structure ItemResult where
  success : Bool
  garment_name : List Char
  error : Option String := none
  job_id : Option (List Char) := none
  full_body_path : Option (List Char) := none
  closeup_path : Option (List Char) := none
  output_path : Option (List Char) := none
deriving Repr, DecidableEq

/-- The closeup path `f"closeup_{Path(garment_path).stem}.png"` derived in
`process_single_garment` (pipeline.py lines 163-173). -/
def closeupName (garmentStem : List Char) : List Char :=
  "closeup_".toList ++ garmentStem ++ ".png".toList

/-- One iteration of the garment loop in `run_batch` (pipeline.py lines
216-234): on a normal return the result dict gains `garment_name`; when the
job succeeded and saved a full-body image, a closeup is derived and its
path recorded; a raised exception is caught and recorded as a failed result
for this item only. -/
def processItem (garment : List Char) (outcome : ItemOutcome) : ItemResult :=
  match outcome with
  | .ok fb fin jid =>
      { success := true, garment_name := stem garment, job_id := some jid,
        full_body_path := fb,
        closeup_path := if fb.isSome then some (closeupName (stem garment)) else none,
        output_path := fin }
  | .fail e => { success := false, garment_name := stem garment, error := some e }
  | .raise e => { success := false, garment_name := stem garment, error := some e }

/-- The dict returned by `run_batch` (pipeline.py lines 203-205 and
247-255).  `document` records the pages of the generated catalog, when
one was generated. -/
structure BatchReport where
  success : Bool
  error : Option String := none
  total : ℕ := 0
  processed : ℕ := 0
  failed : ℕ := 0
  pdf_path : Option String := none
  results : List ItemResult := []
  document : Option (List Catalog.Page) := none
deriving Repr, DecidableEq

/-- The view of a `run_batch` result dict taken by
`create_catalog` (assembler.py lines 109-116): the keys `full_body`,
`closeup`, `product_name` and `product_code` are absent from these dicts
(they carry `full_body_path`, `closeup_path`, `garment_name` instead), so
only `output_path` is found. -/
def ItemResult.toEntry (r : ItemResult) : Catalog.Entry :=
  { output_path := r.output_path }

/-- Mirror of `FashionCatalogPipeline.run_batch` (pipeline.py lines
177-255).  `files` is the input-directory listing and `process` the
behaviour of `process_single_garment` on each garment.  Zero discovered
images short-circuits to `{"success": False, "error": "No images found"}`
without touching any item.  Otherwise each discovered file is processed
independently, and if `generate_pdf` is set and at least one item
succeeded, `create_catalog` runs on the successful results — any exception
it raises propagates out of `run_batch` (the call is not wrapped). -/
def run_batch (files : List (List Char)) (process : List Char → ItemOutcome)
    (generate_pdf : Bool) (brand : String) (pathExists : List Char → Bool) :
    Except String BatchReport :=
  let image_files := discoverImages files
  if image_files.isEmpty then
    .ok { success := false, error := some "No images found" }
  else
    let results := image_files.map (fun f => processItem f (process f))
    let successful := results.filter (fun r => r.success)
    if generate_pdf && !successful.isEmpty then
      match Catalog.create_catalog (successful.map ItemResult.toEntry) true pathExists with
      | .error e => .error e
      | .ok (pages, _) =>
          .ok { success := true, total := image_files.length,
                processed := successful.length,
                failed := (results.filter (fun r => !r.success)).length,
                pdf_path := some ("Final_Catalog_" ++ brand ++ ".pdf"),
                results := results, document := some pages }
    else
      .ok { success := true, total := image_files.length,
            processed := successful.length,
            failed := (results.filter (fun r => !r.success)).length,
            pdf_path := none, results := results, document := none }

end Pipeline

namespace Catalog

/-- Mirror of `FashionCatalogPipeline.generate_catalog_from_images`
(pipeline.py lines 354-384): the sorted `*.png` listing of the images
directory is turned into entries with keys `full_body` and `product_name`
(the stem with underscores replaced by spaces and title-cased); an empty
listing raises `ValueError(f"No images found in {images_dir}")` before any
canvas work; otherwise `create_catalog` runs. -/
def generate_catalog_from_images (pngs : List (List Char)) (images_dir : String)
    (pathExists : List Char → Bool) : Except String (List Page × Bool) :=
  let images := (sortFiles pngs).map (fun f =>
    ({ full_body := some f,
       product_name := some (pyTitle (replaceUnderscore (Pipeline.stem f))) } : Entry))
  if images.isEmpty then .error ("No images found in " ++ images_dir)
  else create_catalog images true pathExists

end Catalog

namespace Drive

/-- Mirror of the `DriveFile` dataclass (google_drive.py lines 25-33). -/
structure DriveFile where
  id : String
  name : String
  mime_type : String
  size : Option ℕ := none
  created_time : Option String := none
  modified_time : Option String := none
deriving Repr, DecidableEq

/-- Outcome of one `list_image_files` call inside the watch loop: a
listing, or an exception (caught and logged by the loop). -/
inductive Listing where
  | ok (files : List DriveFile)
  | err (msg : String)
deriving Repr, DecidableEq

/-- The process-local `known_files` set of `watch_folder`
(google_drive.py line 279), as the list of recorded identifiers;
membership is what matters. -/
structure WatchState where
  known : List String
deriving Repr, DecidableEq

/-- The initial scan of `watch_folder` (google_drive.py lines 281-284):
every identifier of the current listing is recorded as known and the
callback is not invoked. -/
def initialState (initial : List DriveFile) : WatchState :=
  { known := initial.map (fun f => f.id) }

/-- The files of the current listing whose id is not yet known
(google_drive.py line 300). -/
def newFilesOf (st : WatchState) (current : List DriveFile) : List DriveFile :=
  current.filter (fun f => !(st.known.contains f.id))

/-- One iteration of the watch loop after the sleep (google_drive.py lines
298-309): a listing error is logged and the loop continues unchanged; a
successful listing with new files invokes the callback once with exactly
those files and then records their ids; a listing without new files does
nothing.  The optional component is the callback invocation, if any. -/
def watchStep (st : WatchState) (l : Listing) :
    WatchState × Option (List DriveFile) :=
  match l with
  | .err _ => (st, none)
  | .ok current =>
    let newFiles := newFilesOf st current
    if newFiles.isEmpty then (st, none)
    else ({ known := st.known ++ newFiles.map (fun f => f.id) }, some newFiles)

/-- A watch session: the initial scan followed by one `watchStep` per poll.
The second component collects the callback invocations in order, each
carrying the batch of new files it was invoked with. -/
def watchRun (initial : List DriveFile) (polls : List Listing) :
    WatchState × List (List DriveFile) :=
  polls.foldl
    (fun acc l =>
      match watchStep acc.1 l with
      | (st, some batch) => (st, acc.2 ++ [batch])
      | (st, none) => (st, acc.2))
    (initialState initial, [])

end Drive

namespace ImageUtil

/-- The PIL image modes the preparation code distinguishes
(image.py lines 191-199). -/
inductive PilMode where
  | RGB
  | RGBA
  | other (m : String)
deriving Repr, DecidableEq

/-- A PIL image, by mode and pixel dimensions. -/
structure Img where
  mode : PilMode
  width : ℕ
  height : ℕ
deriving Repr, DecidableEq

/-- The mode normalisation of `prepare_garment_image` (image.py lines
192-199): RGBA is pasted onto a white RGB background of the same size,
any other non-RGB mode is converted to RGB; dimensions are unchanged. -/
def toRGB (img : Img) : Img :=
  match img.mode with
  | .RGBA => { mode := PilMode.RGB, width := img.width, height := img.height }
  | .RGB => img
  | .other _ => { mode := PilMode.RGB, width := img.width, height := img.height }

/-- PIL's `round_aspect`: of floor and ceiling the value closer to the
exact quotient (floor on ties, as Python's `min` keeps its first
argument), and at least 1. -/
def roundAspect (q : ℚ) : ℕ :=
  max (if q - (⌊q⌋ : ℚ) ≤ (⌈q⌉ : ℚ) - q then (⌊q⌋).toNat else (⌈q⌉).toNat) 1

/-- Dimensions produced by `img.thumbnail((t, t), ...)` (image.py line
202), following PIL `Image.thumbnail`: an image already fitting in the
`t × t` box is left unchanged (thumbnail never enlarges); otherwise the
binding side becomes `t` and the other side is `round_aspect` of the
exact scaled value. -/
def thumbnailSize (w h t : ℕ) : ℕ × ℕ :=
  if w ≤ t ∧ h ≤ t then (w, h)
  else
    if 1 ≥ (w : ℚ) / (h : ℚ) then
      (roundAspect ((t : ℚ) * ((w : ℚ) / (h : ℚ))), t)
    else
      (t, roundAspect ((t : ℚ) / ((w : ℚ) / (h : ℚ))))

/-- Mirror of `ImageProcessor.prepare_garment_image` (image.py lines
170-217): normalise the mode to RGB, thumbnail into the `t × t` box, and
only if the result is not square paste it centered onto a white `t × t`
RGB canvas. -/
def prepare_garment_image (img : Img) (t : ℕ) : Img :=
  if (thumbnailSize (toRGB img).width (toRGB img).height t).1
       ≠ (thumbnailSize (toRGB img).width (toRGB img).height t).2 then
    { mode := PilMode.RGB, width := t, height := t }
  else
    { mode := (toRGB img).mode,
      width := (thumbnailSize (toRGB img).width (toRGB img).height t).1,
      height := (thumbnailSize (toRGB img).width (toRGB img).height t).2 }

end ImageUtil

namespace Assembler

/-- The drawn size computed by `CatalogAssembler._draw_single_image`
(assembler.py lines 285-297) for an image of intrinsic aspect ratio
`aspect` in a region `width × height`: if the region is proportionally
wider than the image, the height binds (`draw_height = height * 0.9`,
`draw_width = draw_height * aspect`); otherwise the width binds
(`draw_width = width * 0.8`, `draw_height = draw_width / aspect`).
Returns `(draw_width, draw_height)`. -/
def drawSize (width height aspect : ℚ) : ℚ × ℚ :=
  if width / height > aspect then
    (height * (9 / 10) * aspect, height * (9 / 10))
  else
    (width * (8 / 10), width * (8 / 10) / aspect)

/-- The centering of `_draw_single_image` (assembler.py lines 299-301):
`draw_x = x + (width - draw_width) / 2` and
`draw_y = y + (height - draw_height) / 2`. -/
def drawPos (x y width height drawWidth drawHeight : ℚ) : ℚ × ℚ :=
  (x + (width - drawWidth) / 2, y + (height - drawHeight) / 2)

end Assembler

deriving instance DecidableEq for Except

/-- A status schedule that always reports `IN_PROGRESS` (non-terminal). -/
def respInProgress : ℕ → RunPod.PollResponse := fun _ => .ok "IN_PROGRESS" [] none

/-- A status schedule on which every query completes with a non-200
response. -/
def respBad : ℕ → RunPod.PollResponse := fun _ => .badStatus

/-- Concrete Drive files used to instantiate the watcher theorems. -/
def wf1 : Drive.DriveFile := { id := "id1", name := "a.png", mime_type := "image/png" }

/-- Second concrete Drive file. -/
def wf2 : Drive.DriveFile := { id := "id2", name := "b.png", mime_type := "image/png" }

/-- Third concrete Drive file. -/
def wf3 : Drive.DriveFile := { id := "id3", name := "c.png", mime_type := "image/png" }

/-- Fourth concrete Drive file (arrives after the watch starts). -/
def wf4 : Drive.DriveFile := { id := "id4", name := "d.png", mime_type := "image/png" }

/-- Fifth concrete Drive file (arrives after the watch starts). -/
def wf5 : Drive.DriveFile := { id := "id5", name := "e.png", mime_type := "image/png" }

/-- A directory listing with no supported-extension image, one entry even
containing `.png` in the middle of its name. -/
def filesNoImgs : List (List Char) := ["notes.txt".toList, "archive.png.bak".toList]

/-- Input listing for the batch whose document-generation step raises:
two discovered images. -/
def filesC2 : List (List Char) := ["a.png".toList, "b.png".toList]

/-- Per-item behaviour for that batch: processing of `a.png` raises, while
`b.png` succeeds with a saved full-body image but no `"final"` remote
output (so its result dict has `full_body_path` but no `output_path`). -/
def procC2 : List Char → Pipeline.ItemOutcome := fun f =>
  if f = "a.png".toList then .raise "boom"
  else .ok (some ("fb.png".toList)) none ("job-1".toList)

/-- Input listing with a single discovered image. -/
def filesC10 : List (List Char) := ["a.png".toList]

/-- Per-item behaviour in which every item fails. -/
def procC10 : List Char → Pipeline.ItemOutcome := fun _ => .fail "generation failed"

/-- The report `run_batch` returns on `filesC10` with `procC10`. -/
def repC10 : Pipeline.BatchReport :=
  { success := true, total := 1, processed := 0, failed := 1, pdf_path := none,
    results := [{ success := false, garment_name := ['a'], error := some "generation failed" }],
    document := none }

/-- A suffix of a list of characters is mapped to a suffix of the mapped
list. -/
theorem isSuffix_map (g : Char → Char) {l₁ l₂ : List Char} (h : l₁ <:+ l₂) :
    l₁.map g <:+ l₂.map g := by
  obtain ⟨t, rfl⟩ := h
  exact ⟨t.map g, (List.map_append g t l₁).symm⟩

/-- Helper for the empty-batch claim: if no file of the listing has a
supported extension case-insensitively, then a glob pattern whose
lowercased extension is supported matches nothing. -/
theorem filter_nil_of_CI (files : List (List Char))
    (hno : ∀ f ∈ files, Pipeline.supportedCI f = false) (p : List Char)
    (hp : p.map Char.toLower ∈ Pipeline.SUPPORTED_FORMATS) :
    files.filter (fun f => Pipeline.endsWith f p) = [] := by
  rw [List.filter_eq_nil_iff]
  intro f hf hend
  have hsuffix : p <:+ f := of_decide_eq_true hend
  have hlow : p.map Char.toLower <:+ f.map Char.toLower := isSuffix_map Char.toLower hsuffix
  have hCI : Pipeline.supportedCI f = true := by
    unfold Pipeline.supportedCI
    rw [List.any_eq_true]
    exact ⟨p.map Char.toLower, hp, decide_eq_true hlow⟩
  rw [hno f hf] at hCI
  exact Bool.false_ne_true hCI

/-- Discovery finds nothing in a directory with no case-insensitively
supported extension. -/
theorem discover_nil (files : List (List Char))
    (hno : ∀ f ∈ files, Pipeline.supportedCI f = false) :
    Pipeline.discoverImages files = [] := by
  have h := filter_nil_of_CI files hno
  unfold Pipeline.discoverImages Pipeline.SUPPORTED_FORMATS
  simp only [List.foldl_cons, List.foldl_nil]
  rw [h ".png".toList (by decide), h (Pipeline.upperPat ".png".toList) (by decide),
      h ".jpg".toList (by decide), h (Pipeline.upperPat ".jpg".toList) (by decide),
      h ".jpeg".toList (by decide), h (Pipeline.upperPat ".jpeg".toList) (by decide),
      h ".webp".toList (by decide), h (Pipeline.upperPat ".webp".toList) (by decide)]
  rfl

/-- Splitting a list by a boolean predicate preserves its length. -/
theorem filter_length_add (p : Pipeline.ItemResult → Bool) (l : List Pipeline.ItemResult) :
    (l.filter p).length + (l.filter (fun a => !(p a))).length = l.length := by
  induction l with
  | nil => rfl
  | cons a l ih =>
    by_cases h : p a = true
    · simp [List.filter, h, ← ih]
      omega
    · rw [Bool.not_eq_true] at h
      simp [List.filter, h, ← ih]
      omega

/-- The success flag of a recorded item result equals the success of its
outcome. -/
theorem processItem_success (garment : List Char) (o : Pipeline.ItemOutcome) :
    (Pipeline.processItem garment o).success = o.isSuccess := by
  cases o <;> rfl

/-- Whatever the polling schedule, a poll run that returns at `elapsed ≤ T + P`
keeps the claimed bound; auxiliary fuel-indexed induction for the timeout
claim. -/
theorem pollTimeoutAux (T P : ℕ) (h' : 0 < P) (jobId : String)
    (responses : ℕ → RunPod.PollResponse)
    (hnt : ∀ j, (responses j).reportsNonTerminal = true) :
    ∀ n k elapsed, T + 1 - elapsed ≤ n → elapsed ≤ T + P →
      ∃ r, RunPod.pollForResult T P h' jobId responses k elapsed = Except.ok r
        ∧ r.1.status = "timeout" ∧ r.1.success = false ∧ r.2 ≤ T + P := by
  intro n
  induction n with
  | zero =>
    intro k elapsed hn hb
    have hT : T < elapsed := by omega
    refine ⟨({ success := false, job_id := jobId, status := "timeout",
               error := some ("Job timed out after " ++ toString T ++ " seconds") },
             elapsed), ?_, rfl, rfl, hb⟩
    rw [RunPod.pollForResult.eq_def, dif_pos hT]
  | succ n ih =>
    intro k elapsed hn hb
    by_cases hT : T < elapsed
    · refine ⟨({ success := false, job_id := jobId, status := "timeout",
                 error := some ("Job timed out after " ++ toString T ++ " seconds") },
               elapsed), ?_, rfl, rfl, hb⟩
      rw [RunPod.pollForResult.eq_def, dif_pos hT]
    · have hb' : elapsed + P ≤ T + P := by omega
      have hn' : T + 1 - (elapsed + P) ≤ n := by omega
      have hnk := hnt k
      cases hres : responses k with
      | raise msg => rw [hres] at hnk; simp [RunPod.PollResponse.reportsNonTerminal] at hnk
      | badStatus => rw [hres] at hnk; simp [RunPod.PollResponse.reportsNonTerminal] at hnk
      | ok s out err =>
        rw [hres] at hnk
        simp [RunPod.PollResponse.reportsNonTerminal] at hnk
        obtain ⟨⟨h1, h2⟩, h3⟩ := hnk
        obtain ⟨r, hr, hst, hsu, hel⟩ := ih (k + 1) (elapsed + P) hn' hb'
        refine ⟨r, ?_, hst, hsu, hel⟩
        rw [RunPod.pollForResult.eq_def, dif_neg hT, hres]
        dsimp only
        rw [if_neg h1, if_neg h2, if_neg h3]
        exact hr

/-- Fuel-indexed induction showing that every normal return of the poll
loop carries either the timeout marker or a terminal remote status. -/
theorem pollStatusAux (T P : ℕ) (h' : 0 < P) (jobId : String)
    (responses : ℕ → RunPod.PollResponse) :
    ∀ n k elapsed, T + 1 - elapsed ≤ n →
      ∀ r, RunPod.pollForResult T P h' jobId responses k elapsed = Except.ok r →
        r.1.status = "timeout" ∨ r.1.status = "COMPLETED" ∨ r.1.status = "FAILED"
          ∨ r.1.status = "CANCELLED" := by
  intro n
  induction n with
  | zero =>
    intro k elapsed hn r hr
    have hT : T < elapsed := by omega
    rw [RunPod.pollForResult.eq_def, dif_pos hT] at hr
    simp only [Except.ok.injEq] at hr
    subst hr
    left; rfl
  | succ n ih =>
    intro k elapsed hn r hr
    by_cases hT : T < elapsed
    · rw [RunPod.pollForResult.eq_def, dif_pos hT] at hr
      simp only [Except.ok.injEq] at hr
      subst hr
      left; rfl
    · rw [RunPod.pollForResult.eq_def, dif_neg hT] at hr
      cases hres : responses k with
      | raise msg => rw [hres] at hr; simp at hr
      | badStatus =>
        rw [hres] at hr
        exact ih (k + 1) (elapsed + P) (by omega) r hr
      | ok s out err =>
        rw [hres] at hr
        dsimp only at hr
        by_cases h1 : s = "COMPLETED"
        · rw [if_pos h1] at hr
          simp only [Except.ok.injEq] at hr
          subst hr
          right; left; exact h1
        · rw [if_neg h1] at hr
          by_cases h2 : s = "FAILED"
          · rw [if_pos h2] at hr
            simp only [Except.ok.injEq] at hr
            subst hr
            right; right; left; exact h2
          · rw [if_neg h2] at hr
            by_cases h3 : s = "CANCELLED"
            · rw [if_pos h3] at hr
              simp only [Except.ok.injEq] at hr
              subst hr
              right; right; right; exact h3
            · rw [if_neg h3] at hr
              exact ih (k + 1) (elapsed + P) (by omega) r hr

/-- Claim C1: for every configured timeout `T` and poll interval `P`
(whole seconds, `P ≥ 1`), if `submit_job` is called with
`wait_for_completion = true` on an accepted job and every status query
reports a non-terminal status (never `COMPLETED`, `FAILED` or
`CANCELLED`), then the call terminates and returns a `JobResult` with
`status = "timeout"` and `success = false`, and the elapsed wall-clock
time at the moment of return (the sum of the poll sleeps, queries being
modelled as instantaneous) is at most `T + P` — an overshoot of at most
one poll interval past the bound. -/
theorem submit_job_times_out (T P : ℕ) (h' : 0 < P) (jobId : String)
    (responses : ℕ → RunPod.PollResponse)
    (hnt : ∀ j, (responses j).reportsNonTerminal = true) :
    ∃ r, RunPod.pollForResult T P h' jobId responses 0 0 = Except.ok r
      ∧ r.1.status = "timeout" ∧ r.1.success = false ∧ r.2 ≤ T + P
      ∧ RunPod.submitJob T P h' (.accepted jobId) true responses = Except.ok r.1 := by
  obtain ⟨r, hr, h1, h2, h3⟩ :=
    pollTimeoutAux T P h' jobId responses hnt (T + 1) 0 0 (by omega) (by omega)
  refine ⟨r, hr, h1, h2, h3, ?_⟩
  simp [RunPod.submitJob, hr, Except.map]

/-- Witness for the timeout claim: with `timeout = 3` and
`poll_interval = 2` against a schedule that always answers
`IN_PROGRESS`, submission with waiting returns the timeout result and the
loop returns no later than `3 + 2` seconds after submission. -/
theorem submit_job_times_out_witness :
    (RunPod.submitJob 3 2 (by decide) (.accepted "job-1") true respInProgress).map
        (fun q => (q.status, q.success)) = Except.ok ("timeout", false)
    ∧ (RunPod.pollForResult 3 2 (by decide) "job-1" respInProgress 0 0).map
        (fun r => decide (r.2 ≤ 3 + 2)) = Except.ok true := by
  obtain ⟨r, hr, h1, h2, h3, h4⟩ :=
    submit_job_times_out 3 2 (by decide) "job-1" respInProgress (fun j => rfl)
  constructor
  · rw [h4]; simp [Except.map, h1, h2]
  · rw [hr]; simp [Except.map, h3]

/-- Claim C3 counterexample: a transport-level failure of the status
request is a status-query error, yet it aborts the polling loop
immediately — `_poll_for_result` has no try/except around `client.get`,
so the raised `httpx` exception propagates to the caller instead of being
retried after one poll interval.  This refutes the claim's coverage of
network/transport failures. -/
theorem poll_transport_error_aborts :
    RunPod.pollForResult 300 5 (by decide) "job-1"
        (fun _ => RunPod.PollResponse.raise "httpx.ConnectError") 0 0
      = Except.error "httpx.ConnectError" := by
  rw [RunPod.pollForResult.eq_def]
  rfl

/-- Claim C3 (amended): every status query that completes with a non-200
response makes the loop wait one poll interval and retry, and such
responses are never surfaced to the caller — any normal return of the
loop carries either the timeout marker or a terminal remote status.
Transport-level exceptions raised by the status request itself are,
however, not caught and abort the loop (see the counterexample). -/
theorem poll_non200_retries (T P : ℕ) (h' : 0 < P) (jobId : String)
    (responses : ℕ → RunPod.PollResponse) :
    (∀ k elapsed, elapsed ≤ T → responses k = .badStatus →
        RunPod.pollForResult T P h' jobId responses k elapsed
          = RunPod.pollForResult T P h' jobId responses (k + 1) (elapsed + P))
  ∧ (∀ k elapsed r, RunPod.pollForResult T P h' jobId responses k elapsed = Except.ok r →
        r.1.status = "timeout" ∨ r.1.status = "COMPLETED" ∨ r.1.status = "FAILED"
          ∨ r.1.status = "CANCELLED") := by
  constructor
  · intro k elapsed he hres
    rw [RunPod.pollForResult.eq_def, dif_neg (by omega : ¬ T < elapsed), hres]
  · intro k elapsed r hr
    exact pollStatusAux T P h' jobId responses (T + 1 - elapsed) k elapsed (by omega) r hr

/-- Witness for the non-200 retry behaviour: with `timeout = 5`,
`poll_interval = 2`, a first query answering non-200 leaves the loop
exactly where it would be one poll interval later. -/
theorem poll_non200_retries_witness :
    RunPod.pollForResult 5 2 (by decide) "job-1" respBad 0 0
      = RunPod.pollForResult 5 2 (by decide) "job-1" respBad 1 2 :=
  (poll_non200_retries 5 2 (by decide) "job-1" respBad).1 0 0 (by omega) rfl

/-- Claim C8: for every submission with `wait_for_completion = false` that
is accepted by the endpoint, `submit_job` returns immediately after
acceptance — the result is the same whatever the polling schedule, so the
polling loop is never consulted — with `success = true`, the accepted
state marker `status = "queued"` and the job id returned by the
endpoint. -/
theorem submit_job_no_wait_accepted (T P : ℕ) (h' : 0 < P) (jobId : String)
    (responses : ℕ → RunPod.PollResponse) :
    RunPod.submitJob T P h' (.accepted jobId) false responses
      = Except.ok { success := true, job_id := jobId, status := "queued",
                    output := none, error := none } := rfl

/-- Witness for the no-wait claim at a concrete configuration and job
id. -/
theorem submit_job_no_wait_accepted_witness :
    RunPod.submitJob 10 1 (by decide) (.accepted "abc123") false respBad
      = Except.ok { success := true, job_id := "abc123", status := "queued",
                    output := none, error := none } :=
  submit_job_no_wait_accepted 10 1 (by decide) "abc123" respBad

/-- Claim C2 (code-bug evidence): a batch of two discovered images in
which processing of `a.png` raises and `b.png` succeeds with a full-body
output but no `"final"` remote output.  Per-item processing is isolated
as claimed, but the requested document generation then raises: the
success dicts carry the keys `full_body_path`/`closeup_path` while
`create_catalog` reads `full_body`/`closeup` (its own docstring asks for
those keys), so the product page's primary image is `None` and
`os.path.exists(None)` raises `TypeError`, which nothing catches —
`run_batch` aborts and the batch report, which the claim says is
returned with one result per item and an N-1-page document, is lost. -/
theorem run_batch_pdf_step_raises :
    Pipeline.run_batch filesC2 procC2 true "bono" (fun _ => true)
      = Except.error Catalog.typeErrorNone := by decide

/-- Claim C4: for every image of intrinsic aspect ratio `A > 0` placed
alone into a content region of width `W > 0` and height `H > 0` at origin
`(x, y)`: if `W / H > A` the drawn height is `0.9 * H` and the drawn
width `0.9 * H * A` (height binding), otherwise the drawn width is
`0.8 * W` and the drawn height `0.8 * W / A` (width binding); in both
cases the drawn rectangle preserves the aspect ratio, lies within the
region, and is centered in both axes (equal margins on each side). -/
theorem single_image_aspect_fit (x y W H A : ℚ) (hW : 0 < W) (hH : 0 < H) (hA : 0 < A) :
    (W / H > A →
       (Assembler.drawSize W H A).2 = 9 / 10 * H
         ∧ (Assembler.drawSize W H A).1 = 9 / 10 * H * A)
  ∧ (¬ W / H > A →
       (Assembler.drawSize W H A).1 = 8 / 10 * W
         ∧ (Assembler.drawSize W H A).2 = 8 / 10 * W / A)
  ∧ (Assembler.drawSize W H A).1 / (Assembler.drawSize W H A).2 = A
  ∧ 0 < (Assembler.drawSize W H A).1 ∧ (Assembler.drawSize W H A).1 ≤ W
  ∧ 0 < (Assembler.drawSize W H A).2 ∧ (Assembler.drawSize W H A).2 ≤ H
  ∧ x ≤ (Assembler.drawPos x y W H (Assembler.drawSize W H A).1 (Assembler.drawSize W H A).2).1
  ∧ (Assembler.drawPos x y W H (Assembler.drawSize W H A).1 (Assembler.drawSize W H A).2).1
      + (Assembler.drawSize W H A).1 ≤ x + W
  ∧ y ≤ (Assembler.drawPos x y W H (Assembler.drawSize W H A).1 (Assembler.drawSize W H A).2).2
  ∧ (Assembler.drawPos x y W H (Assembler.drawSize W H A).1 (Assembler.drawSize W H A).2).2
      + (Assembler.drawSize W H A).2 ≤ y + H
  ∧ (Assembler.drawPos x y W H (Assembler.drawSize W H A).1 (Assembler.drawSize W H A).2).1 - x
      = (x + W) - ((Assembler.drawPos x y W H (Assembler.drawSize W H A).1
          (Assembler.drawSize W H A).2).1 + (Assembler.drawSize W H A).1)
  ∧ (Assembler.drawPos x y W H (Assembler.drawSize W H A).1 (Assembler.drawSize W H A).2).2 - y
      = (y + H) - ((Assembler.drawPos x y W H (Assembler.drawSize W H A).1
          (Assembler.drawSize W H A).2).2 + (Assembler.drawSize W H A).2) := by
  have hH0 : H ≠ 0 := ne_of_gt hH
  have hA0 : A ≠ 0 := ne_of_gt hA
  by_cases hbr : W / H > A
  · have hs : Assembler.drawSize W H A = (H * (9 / 10) * A, H * (9 / 10)) := by
      simp [Assembler.drawSize, hbr]
    have hAH : A * H < W := by
      rw [gt_iff_lt, lt_div_iff₀ hH] at hbr
      exact hbr
    have hdw0 : 0 < H * (9 / 10) * A := by positivity
    have hdh0 : 0 < H * (9 / 10) := by positivity
    have hdwW : H * (9 / 10) * A ≤ W := by nlinarith
    have hdhH : H * (9 / 10) ≤ H := by nlinarith
    rw [hs]
    dsimp only
    simp only [Assembler.drawPos]
    refine ⟨fun _ => ⟨by ring, by ring⟩, fun h => absurd hbr h, ?_, hdw0, hdwW, hdh0, hdhH,
      by linarith, by linarith, by linarith, by linarith, by ring, by ring⟩
    rw [mul_div_cancel_left₀ _ (ne_of_gt hdh0)]
  · have hs : Assembler.drawSize W H A = (W * (8 / 10), W * (8 / 10) / A) := by
      simp [Assembler.drawSize, hbr]
    have hWH : W ≤ A * H := by
      rw [gt_iff_lt, not_lt] at hbr
      rw [div_le_iff₀ hH] at hbr
      exact hbr
    have hdw0 : 0 < W * (8 / 10) := by positivity
    have hdh0 : 0 < W * (8 / 10) / A := by positivity
    have hdwW : W * (8 / 10) ≤ W := by nlinarith
    have hdhH : W * (8 / 10) / A ≤ H := by
      have h1 : W * (8 / 10) / A ≤ W / A := (div_le_div_iff_of_pos_right hA).mpr hdwW
      have h2 : W / A ≤ H := by
        rw [div_le_iff₀ hA]
        nlinarith
      linarith
    rw [hs]
    dsimp only
    simp only [Assembler.drawPos]
    refine ⟨fun h => absurd h hbr, fun _ => ⟨by ring, by ring⟩, ?_, hdw0, hdwW, hdh0, hdhH,
      by linarith, by linarith, by linarith, by linarith, by ring, by ring⟩
    rw [div_div_eq_mul_div, mul_comm, mul_div_assoc, div_self (ne_of_gt hdw0), mul_one]

/-- Witness for the aspect-fit claim: a 2:1 region with a square image is
proportionally wider than the image, and the drawn rectangle keeps the
1:1 ratio. -/
theorem single_image_aspect_fit_witness :
    (Assembler.drawSize 100 50 1).1 / (Assembler.drawSize 100 50 1).2 = 1 :=
  (single_image_aspect_fit 0 0 100 50 1 (by norm_num) (by norm_num) (by norm_num)).2.2.1

/-- Claim C5: a watch session started against a folder listing records
all current identifiers as known without producing any callback
invocation; thereafter a poll whose listing contains new files (ids not
yet known) triggers exactly one callback invocation carrying exactly
those files, whose ids are then added to the known set; a poll without
new identifiers produces no invocation. -/
theorem watch_folder_new_item_detection
    (initial current : List Drive.DriveFile) (st : Drive.WatchState) :
    ((Drive.watchRun initial []).1.known = initial.map (fun f => f.id)
       ∧ (Drive.watchRun initial []).2 = [])
  ∧ (Drive.newFilesOf st current ≠ [] →
       Drive.watchStep st (.ok current)
         = ({ known := st.known ++ (Drive.newFilesOf st current).map (fun f => f.id) },
            some (Drive.newFilesOf st current)))
  ∧ (Drive.newFilesOf st current = [] →
       Drive.watchStep st (.ok current) = (st, none)) := by
  refine ⟨⟨rfl, rfl⟩, ?_, ?_⟩
  · intro h
    have he : (Drive.newFilesOf st current).isEmpty = false := by
      cases hc : Drive.newFilesOf st current with
      | nil => exact absurd hc h
      | cons a l => rfl
    simp [Drive.watchStep, he]
  · intro h
    simp [Drive.watchStep, h]

/-- Witness for the watcher claim, mirroring the spec's example: three
existing items are recorded as known with no callback; a poll that sees
two additional items invokes the callback with exactly those two and
extends the known set by their ids. -/
theorem watch_folder_new_item_detection_witness :
    ((Drive.watchRun [wf1, wf2, wf3] []).1.known = ["id1", "id2", "id3"]
       ∧ (Drive.watchRun [wf1, wf2, wf3] []).2 = [])
  ∧ Drive.watchStep { known := ["id1", "id2", "id3"] } (.ok [wf1, wf2, wf3, wf4, wf5])
      = ({ known := ["id1", "id2", "id3", "id4", "id5"] }, some [wf4, wf5]) := by
  have h := watch_folder_new_item_detection [wf1, wf2, wf3] [wf1, wf2, wf3, wf4, wf5]
      { known := ["id1", "id2", "id3"] }
  refine ⟨⟨by rw [h.1.1]; decide, h.1.2⟩, ?_⟩
  rw [h.2.1 (by decide)]
  decide

/-- Claim C6: for every input directory containing zero files whose
extension is in the supported set matched case-insensitively, `run_batch`
returns a report with `success = false` and the non-empty error message
`"No images found"`, and performs no remote job submission and no
per-item processing — the equation holds for every `process` function and
the returned report carries an empty `results` list, so no item was ever
handed to `process_single_garment` (the only submission path). -/
theorem run_batch_no_images (files : List (List Char))
    (process : List Char → Pipeline.ItemOutcome) (generate_pdf : Bool) (brand : String)
    (pathExists : List Char → Bool)
    (hno : ∀ f ∈ files, Pipeline.supportedCI f = false) :
    Pipeline.run_batch files process generate_pdf brand pathExists
      = Except.ok { success := false, error := some "No images found" }
    ∧ "No images found" ≠ "" := by
  constructor
  · have hd := discover_nil files hno
    simp [Pipeline.run_batch, hd]
  · decide

/-- Witness for the empty-batch claim on a directory holding only
`notes.txt` and `archive.png.bak`. -/
theorem run_batch_no_images_witness :
    Pipeline.run_batch filesNoImgs (fun _ => Pipeline.ItemOutcome.fail "never invoked")
        true "bono" (fun _ => true)
      = Except.ok { success := false, error := some "No images found" } :=
  (run_batch_no_images filesNoImgs (fun _ => Pipeline.ItemOutcome.fail "never invoked")
      true "bono" (fun _ => true) (by decide)).1

/-- Claim C7 counterexample: `create_catalog` called with an empty entry
list reports no error and does canvas work — with the default
`include_cover` it composes the cover and the back cover and writes the
artifact (the `true` component records that `canvas.save()` ran).  The
claimed empty-list error is not raised here. -/
theorem create_catalog_empty_does_canvas_work :
    Catalog.create_catalog [] true (fun _ => false)
      = Except.ok ([Catalog.Page.cover, Catalog.Page.backCover], true) := by decide

/-- Claim C7 (amended): the empty-entry error is raised by the caller —
`generate_catalog_from_images` raises `ValueError` before `create_catalog`
is ever invoked — while `create_catalog` itself happily composes cover
and back cover and writes an artifact with zero product pages; and for
every entry whose primary image path does not exist on disk, the image is
skipped with a log but the entry's page is still emitted with its title,
never aborting page composition. -/
theorem catalog_empty_error_and_missing_image_skip
    (pngs : List (List Char)) (images_dir : String) (pathExists : List Char → Bool) :
    (pngs = [] →
       Catalog.generate_catalog_from_images pngs images_dir pathExists
         = Except.error ("No images found in " ++ images_dir))
  ∧ Catalog.create_catalog [] true pathExists
      = Except.ok ([Catalog.Page.cover, Catalog.Page.backCover], true)
  ∧ (∀ p product_name product_code page_number, pathExists p = false →
       Catalog.create_product_page pathExists (some p) none product_name product_code page_number
         = Except.ok (Catalog.Page.product product_name product_code page_number [])) := by
  refine ⟨?_, rfl, ?_⟩
  · intro h
    subst h
    rfl
  · intro p product_name product_code page_number hp
    simp [Catalog.create_product_page, Catalog.draw_single_image, hp]

/-- Witness for the amended catalog claim: an empty images directory makes
the caller raise before any canvas work, and a product page with a
missing primary image is still emitted with its title and no drawn
image. -/
theorem catalog_empty_error_and_missing_image_skip_witness :
    Catalog.generate_catalog_from_images [] "imgdir" (fun _ => true)
      = Except.error ("No images found in " ++ "imgdir")
    ∧ Catalog.create_product_page (fun _ => false) (some "missing.png".toList) none
        "Polo".toList none 1
      = Except.ok (Catalog.Page.product "Polo".toList none 1 []) :=
  ⟨(catalog_empty_error_and_missing_image_skip [] "imgdir" (fun _ => true)).1 rfl,
   (catalog_empty_error_and_missing_image_skip [] "imgdir" (fun _ => false)).2.2
     "missing.png".toList "Polo".toList none 1 rfl⟩

/-- Claim C9 counterexample: a readable RGB image that is already square
and smaller than the target dimension is returned at its own size — PIL's
`thumbnail` never enlarges and the padding branch only runs when the
thumbnailed image is not square — so the output of
`prepare_garment_image` is a 100 × 100 image, not the claimed
`target_size × target_size` (1024 × 1024) square. -/
theorem prepare_square_small_not_target :
    ImageUtil.prepare_garment_image
        { mode := ImageUtil.PilMode.RGB, width := 100, height := 100 } 1024
      = { mode := ImageUtil.PilMode.RGB, width := 100, height := 100 }
    ∧ (100 : ℕ) ≠ 1024 :=
  ⟨by decide, by decide⟩

/-- Mode normalisation always yields RGB. -/
theorem toRGB_mode (img : ImageUtil.Img) :
    (ImageUtil.toRGB img).mode = ImageUtil.PilMode.RGB := by
  cases h : img.mode <;> simp [ImageUtil.toRGB, h]

/-- Mode normalisation keeps the width. -/
theorem toRGB_width (img : ImageUtil.Img) : (ImageUtil.toRGB img).width = img.width := by
  cases h : img.mode <;> simp [ImageUtil.toRGB, h]

/-- Mode normalisation keeps the height. -/
theorem toRGB_height (img : ImageUtil.Img) : (ImageUtil.toRGB img).height = img.height := by
  cases h : img.mode <;> simp [ImageUtil.toRGB, h]

/-- A square thumbnail result never exceeds the target box. -/
theorem thumbnail_square_le (a b t : ℕ) (w : ℕ)
    (hw : ImageUtil.thumbnailSize a b t = (w, w)) : w ≤ t := by
  unfold ImageUtil.thumbnailSize at hw
  split_ifs at hw with h1 h2
  · simp only [Prod.mk.injEq] at hw
    omega
  · simp only [Prod.mk.injEq] at hw
    omega
  · simp only [Prod.mk.injEq] at hw
    omega

/-- Claim C9 (amended): for every readable input image,
`prepare_garment_image` produces an RGB image (alpha composited onto a
white background for RGBA input) that is square and no larger than the
target dimension; its side equals `target_size` exactly whenever the
aspect-fitted (thumbnailed) image is not square, while an already-square
thumbnail keeps its own side (which can be smaller than the target, since
`thumbnail` never enlarges and the padding branch is skipped for square
images). -/
theorem prepare_garment_image_output (img : ImageUtil.Img) (t : ℕ) :
    (ImageUtil.prepare_garment_image img t).mode = ImageUtil.PilMode.RGB
  ∧ (ImageUtil.prepare_garment_image img t).width
      = (ImageUtil.prepare_garment_image img t).height
  ∧ (ImageUtil.prepare_garment_image img t).width ≤ t
  ∧ ((ImageUtil.thumbnailSize img.width img.height t).1
        ≠ (ImageUtil.thumbnailSize img.width img.height t).2 →
      (ImageUtil.prepare_garment_image img t).width = t
        ∧ (ImageUtil.prepare_garment_image img t).height = t) := by
  unfold ImageUtil.prepare_garment_image
  rw [toRGB_width, toRGB_height, toRGB_mode]
  by_cases hne : (ImageUtil.thumbnailSize img.width img.height t).1
      ≠ (ImageUtil.thumbnailSize img.width img.height t).2
  · rw [if_pos hne]
    exact ⟨rfl, rfl, le_rfl, fun _ => ⟨rfl, rfl⟩⟩
  · rw [if_neg hne]
    rw [not_ne_iff] at hne
    have hsq : ImageUtil.thumbnailSize img.width img.height t
        = ((ImageUtil.thumbnailSize img.width img.height t).1,
           (ImageUtil.thumbnailSize img.width img.height t).1) := by
      conv_lhs => rw [← Prod.mk.eta (p := ImageUtil.thumbnailSize img.width img.height t)]
      rw [hne]
    have hle := thumbnail_square_le img.width img.height t _ hsq
    exact ⟨rfl, hne, hle, fun h => absurd hne h⟩

/-- Claim C10: for every batch in which at least one supported input
image is discovered, any report returned by `run_batch` satisfies
`processed + failed = total` with `total` the number of discovered files
and carries `success = true` — batch-level success only records that the
batch ran; and when every individual item fails, a report is indeed
returned, with `success = true`, zero processed items and the artifact
path unset. -/
theorem run_batch_report_invariants (files : List (List Char))
    (process : List Char → Pipeline.ItemOutcome) (generate_pdf : Bool) (brand : String)
    (pathExists : List Char → Bool)
    (hne : Pipeline.discoverImages files ≠ []) :
    (∀ r, Pipeline.run_batch files process generate_pdf brand pathExists = Except.ok r →
       r.processed + r.failed = r.total
         ∧ r.total = (Pipeline.discoverImages files).length
         ∧ r.success = true)
  ∧ ((∀ f ∈ Pipeline.discoverImages files, (process f).isSuccess = false) →
       ∃ r, Pipeline.run_batch files process generate_pdf brand pathExists = Except.ok r
         ∧ r.success = true ∧ r.processed = 0 ∧ r.pdf_path = none) := by
  have hemp : (Pipeline.discoverImages files).isEmpty = false := by
    cases hc : Pipeline.discoverImages files with
    | nil => exact absurd hc hne
    | cons a l => rfl
  constructor
  · intro r hr
    rw [Pipeline.run_batch] at hr
    simp only [hemp, Bool.false_eq_true, if_false] at hr
    set results := (Pipeline.discoverImages files).map
        (fun f => Pipeline.processItem f (process f)) with hres
    have hlen : (results.filter (fun r => r.success)).length
        + (results.filter (fun r => !r.success)).length
        = (Pipeline.discoverImages files).length := by
      rw [filter_length_add, hres, List.length_map]
    split at hr
    · split at hr
      · exact absurd hr (by simp)
      · simp only [Except.ok.injEq] at hr
        subst hr
        exact ⟨hlen, rfl, rfl⟩
    · simp only [Except.ok.injEq] at hr
      subst hr
      exact ⟨hlen, rfl, rfl⟩
  · intro hall
    set results := (Pipeline.discoverImages files).map
        (fun f => Pipeline.processItem f (process f)) with hres
    have hfilter : results.filter (fun r => r.success) = [] := by
      rw [List.filter_eq_nil_iff]
      intro a ha
      rw [hres, List.mem_map] at ha
      obtain ⟨f, hf, rfl⟩ := ha
      rw [Bool.not_eq_true, processItem_success]
      exact hall f hf
    refine ⟨{ success := true, total := (Pipeline.discoverImages files).length,
              processed := 0,
              failed := (results.filter (fun r => !r.success)).length,
              pdf_path := none, results := results, document := none }, ?_, rfl, rfl, rfl⟩
    rw [Pipeline.run_batch]
    simp only [hemp, Bool.false_eq_true, if_false]
    rw [← hres, hfilter]
    simp

/-- Witness for the report invariants on a one-image batch whose only
item fails: the report is returned with `success = true`,
`processed + failed = total` and no artifact path. -/
theorem run_batch_report_invariants_witness :
    repC10.processed + repC10.failed = repC10.total
    ∧ repC10.success = true ∧ repC10.pdf_path = none := by
  have h := (run_batch_report_invariants filesC10 procC10 true "bono" (fun _ => true)
      (by decide)).1 repC10 (by decide)
  exact ⟨h.1, h.2.2, rfl⟩
